import Mathlib

/-!
Verification of the package-group admin consumer commands in
`pulp_rpm/extensions/admin/rpm_admin_consumer/group.py`.

The file shallowly embeds the two command classes `Install` and `Uninstall`:
their CLI option surface (`__init__`), the keyword-argument processing
(`run`), the server interaction (`install` / `uninstall`, including the
`try/except NotFoundException` wrapper), and the result rendering
(`succeeded`).  Server interactions are modelled as an explicit event trace
plus an optional uncaught exception; the responses of the remote server are
an explicit environment parameter.
-/

/-- Content type id for package groups (`pulp_rpm.common.ids.TYPE_ID_PKG_GROUP`).
The claims only use it as a fixed token. -/
def TYPE_ID_PKG_GROUP : String := "package_group"

/-- Unit key dict `dict(name=name)` built in `run`. -/
structure UnitKey where
  name : String
deriving DecidableEq, Repr

/-- Unit descriptor `dict(type_id=TYPE_ID_PKG_GROUP, unit_key=unit_key)` built in `run`. -/
structure PkgUnit where
  type_id : String
  unit_key : UnitKey
deriving DecidableEq, Repr

/-- Document rendered in a table: a JSON-like object, modelled as key/value pairs. -/
abbrev Doc := List (String × String)

/-- Fields of `task.result['details'][TYPE_ID_PKG_GROUP]['details']` read by `succeeded`. -/
structure GroupDetails where
  message : String
  resolved : List Doc
  deps : List Doc
deriving DecidableEq, Repr

/-- Fields of `task.result` read by `succeeded`: the `status` flag (python truthiness
modelled as `Bool`) and the per-type details addressed at `TYPE_ID_PKG_GROUP`. -/
structure TaskResult where
  status : Bool
  details : GroupDetails
deriving DecidableEq, Repr

/-- Task document returned by the server.  `task_id` is read directly by
`install`/`uninstall`.  Modelled from the spec: `rejected` and `postponed` are the
predicates of the inherited `PollingCommand` (its module `command.py` only declares
them outside this file's source); they are modelled as attributes of the task. -/
structure PulpTask where
  task_id : String
  rejected : Bool
  postponed : Bool
  result : TaskResult
deriving DecidableEq, Repr

/-- Exceptions a server call can raise: `NotFoundException` from
`pulp.bindings.exceptions`, or any other exception, identified by name. -/
inductive Exc where
  | notFound
  | other (name : String)
deriving DecidableEq, Repr

/-- Observable events of a command invocation: the REST calls it issues and the
prompt-rendering calls it makes, in order. -/
inductive Event where
  | callInstall (consumer_id : String) (units : List PkgUnit) (options : List (String × Bool))
  | callUninstall (consumer_id : String) (units : List PkgUnit) (options : List (String × Bool))
  | callGetTask (task_id : String)
  | renderSuccess (msg : String)
  | renderFailure (msg : String)
  | renderTitle (t : String)
  | renderDocList (docs : List Doc) (ord : List String) (filters : List String)
  | processCall (consumer_id : String) (task : PulpTask)
  | write (msg : String) (tag : String)
deriving DecidableEq, Repr

/-- True exactly on a `callGetTask` event. -/
def Event.isGetTask : Event → Bool
  | .callGetTask _ => true
  | _ => false

/-- Behaviour of the remote server during one command invocation:
`contentResp` is the outcome of `server.consumer_content.install`/`.uninstall`,
`getTaskResp` the outcome of `server.tasks.get_task` for a given task id, and
`processOutcome` whether the inherited `PollingCommand.process` step (modelled
from the spec: poll until completion, code in `command.py`) returns or raises. -/
structure Env where
  contentResp : Except Exc PulpTask
  getTaskResp : String → Except Exc PulpTask
  processOutcome : String → PulpTask → Except Exc Unit

/-- Shared tail of `Install.install` and `Uninstall.uninstall` after the task is
created (source lines 120-126 and 211-217): fetch the task status once, return
if rejected or postponed, otherwise hand the task to `process`. -/
def pollTask (consumer_id : String) (task : PulpTask) (env : Env) : List Event × Option Exc :=
  match env.getTaskResp task.task_id with
  | .error e => ([Event.callGetTask task.task_id], some e)
  | .ok task2 =>
    if task2.rejected then ([Event.callGetTask task.task_id], none)
    else if task2.postponed then ([Event.callGetTask task.task_id], none)
    else
      match env.processOutcome consumer_id task2 with
      | .error e => ([Event.callGetTask task.task_id, Event.processCall consumer_id task2], some e)
      | .ok _ => ([Event.callGetTask task.task_id, Event.processCall consumer_id task2], none)

/-- The `except NotFoundException` clause, identical in `Install.install` and
`Uninstall.uninstall`: when the try body raised `NotFoundException`, write
`Consumer [<consumer_id>] not found` with tag `not-found` and swallow the
exception; every other outcome of the try body is returned unchanged. -/
def catchNotFound (consumer_id : String) (r : List Event × Option Exc) :
    List Event × Option Exc :=
  match r.2 with
  | some Exc.notFound =>
      (r.1 ++ [Event.write ("Consumer [" ++ consumer_id ++ "] not found") "not-found"], none)
  | _ => r

/-- CLI option declarations made by a command constructor: `create_option`
(with `required`, `allow_multiple` and `aliases` arguments) or `create_flag`. -/
inductive CliOpt where
  | opt (name : String) (required : Bool) (allow_multiple : Bool) (aliases : List String)
  | flag (name : String)
deriving DecidableEq, Repr

namespace Install

/-- Options registered by `Install.__init__`, in declaration order. -/
def cliOptions : List CliOpt :=
  [CliOpt.opt "--consumer-id" true false [],
   CliOpt.flag "--no-commit",
   CliOpt.flag "--reboot",
   CliOpt.opt "--name" true true ["-n"],
   CliOpt.flag "--import-keys"]

end Install

namespace Uninstall

/-- Options registered by `Uninstall.__init__`, in declaration order. -/
def cliOptions : List CliOpt :=
  [CliOpt.opt "--consumer-id" true false [],
   CliOpt.flag "--no-commit",
   CliOpt.flag "--reboot",
   CliOpt.opt "--name" true true ["-n"]]

end Uninstall

/-- Keyword arguments `Install.run` receives from its parsed options. -/
structure InstallKwargs where
  consumer_id : String
  no_commit : Bool
  reboot : Bool
  name : List String
  import_keys : Bool

/-- Keyword arguments `Uninstall.run` receives from its parsed options. -/
structure UninstallKwargs where
  consumer_id : String
  no_commit : Bool
  reboot : Bool
  name : List String

namespace Install

/-- Options dict built by `Install.run`:
`dict(apply=not no-commit, importkeys=import-keys, reboot=reboot)`. -/
def runOptions (kw : InstallKwargs) : List (String × Bool) :=
  [("apply", !kw.no_commit), ("importkeys", kw.import_keys), ("reboot", kw.reboot)]

/-- Units list built by the `for name in kwargs` loop of `Install.run`. -/
def runUnits (names : List String) : List PkgUnit :=
  names.map (fun n => { type_id := TYPE_ID_PKG_GROUP, unit_key := { name := n } })

/-- Body of the `try` block of `Install.install` (lines 116-126): issue the
content call, announce the created task, then poll its status. -/
def installTry (consumer_id : String) (units : List PkgUnit)
    (options : List (String × Bool)) (env : Env) : List Event × Option Exc :=
  match env.contentResp with
  | .error e => ([Event.callInstall consumer_id units options], some e)
  | .ok task =>
    let p := pollTask consumer_id task env
    (Event.callInstall consumer_id units options ::
      Event.renderSuccess ("Install task created with id [" ++ task.task_id ++ "]") :: p.1,
      p.2)

/-- The method `Install.install`: the try body wrapped in
`except NotFoundException`, which writes a not-found message; every other
exception propagates. -/
def install (consumer_id : String) (units : List PkgUnit)
    (options : List (String × Bool)) (env : Env) : List Event × Option Exc :=
  catchNotFound consumer_id (installTry consumer_id units options env)

/-- The method `Install.run`: unpack the kwargs, build options and units, and
delegate to `install`. -/
def run (kw : InstallKwargs) (env : Env) : List Event × Option Exc :=
  install kw.consumer_id (runUnits kw.name) (runOptions kw) env

/-- Column list `filter = ['name', 'version', 'arch', 'repoid']` of `Install.succeeded`. -/
def filter : List String := ["name", "version", "arch", "repoid"]

/-- The method `Install.succeeded`: render failure messages when the task result
status is falsy, otherwise the success message, the resolved section (or the
already-installed note) and, when present, the dependency section. -/
def succeeded (id : String) (task : PulpTask) : List Event :=
  if !task.result.status then
    [Event.renderFailure "Install failed",
     Event.renderFailure task.result.details.message]
  else
    [Event.renderSuccess "Install Succeeded"] ++
    (if task.result.details.resolved ≠ [] then
       [Event.renderTitle "Installed",
        Event.renderDocList task.result.details.resolved filter filter]
     else
       [Event.renderSuccess "Packages for groups already installed"]) ++
    (if task.result.details.deps ≠ [] then
       [Event.renderTitle "Installed for dependency",
        Event.renderDocList task.result.details.deps filter filter]
     else [])

end Install

namespace Uninstall

/-- Options dict built by `Uninstall.run`: `dict(apply=not no-commit, reboot=reboot)`. -/
def runOptions (kw : UninstallKwargs) : List (String × Bool) :=
  [("apply", !kw.no_commit), ("reboot", kw.reboot)]

/-- Units list built by the `for name in kwargs` loop of `Uninstall.run`. -/
def runUnits (names : List String) : List PkgUnit :=
  names.map (fun n => { type_id := TYPE_ID_PKG_GROUP, unit_key := { name := n } })

/-- Body of the `try` block of `Uninstall.uninstall` (lines 207-217). -/
def uninstallTry (consumer_id : String) (units : List PkgUnit)
    (options : List (String × Bool)) (env : Env) : List Event × Option Exc :=
  match env.contentResp with
  | .error e => ([Event.callUninstall consumer_id units options], some e)
  | .ok task =>
    let p := pollTask consumer_id task env
    (Event.callUninstall consumer_id units options ::
      Event.renderSuccess ("Uninstall task created with id[" ++ task.task_id ++ "]") :: p.1,
      p.2)

/-- The method `Uninstall.uninstall`: the try body wrapped in
`except NotFoundException`. -/
def uninstall (consumer_id : String) (units : List PkgUnit)
    (options : List (String × Bool)) (env : Env) : List Event × Option Exc :=
  catchNotFound consumer_id (uninstallTry consumer_id units options env)

/-- The method `Uninstall.run`. -/
def run (kw : UninstallKwargs) (env : Env) : List Event × Option Exc :=
  uninstall kw.consumer_id (runUnits kw.name) (runOptions kw) env

/-- Column list `filter` of `Uninstall.succeeded`. -/
def filter : List String := ["name", "version", "arch", "repoid"]

/-- The method `Uninstall.succeeded`. -/
def succeeded (id : String) (task : PulpTask) : List Event :=
  if !task.result.status then
    [Event.renderFailure "Uninstall Failed",
     Event.renderFailure task.result.details.message]
  else
    [Event.renderSuccess "Uninstall Succeeded"] ++
    (if task.result.details.resolved ≠ [] then
       [Event.renderTitle "Uninstalled",
        Event.renderDocList task.result.details.resolved filter filter]
     else
       [Event.renderSuccess "No matching packages found to uninstall"]) ++
    (if task.result.details.deps ≠ [] then
       [Event.renderTitle "Uninstalled for dependency",
        Event.renderDocList task.result.details.deps filter filter]
     else [])

end Uninstall

/-! ## Helper lemmas about the exception wrapper and the polling tail -/

theorem catchNotFound_of_none (cid : String) (r : List Event × Option Exc)
    (h : r.2 = none) : catchNotFound cid r = r := by
  unfold catchNotFound
  rw [h]

theorem catchNotFound_of_other (cid : String) (r : List Event × Option Exc)
    (n : String) (h : r.2 = some (Exc.other n)) : catchNotFound cid r = r := by
  unfold catchNotFound
  rw [h]

theorem catchNotFound_of_notFound (cid : String) (r : List Event × Option Exc)
    (h : r.2 = some Exc.notFound) :
    catchNotFound cid r =
      (r.1 ++ [Event.write ("Consumer [" ++ cid ++ "] not found") "not-found"], none) := by
  unfold catchNotFound
  rw [h]

theorem catchNotFound_cons_head (cid : String) (a : Event) (t : List Event)
    (exc : Option Exc) : (catchNotFound cid (a :: t, exc)).1.head? = some a := by
  unfold catchNotFound
  rcases exc with _ | e
  · rfl
  · rcases e with _ | n
    · simp
    · rfl

theorem catchNotFound_cons2_take (cid : String) (a b : Event) (t : List Event)
    (exc : Option Exc) : (catchNotFound cid (a :: b :: t, exc)).1.take 2 = [a, b] := by
  unfold catchNotFound
  rcases exc with _ | e
  · simp
  · rcases e with _ | n
    · simp
    · simp

theorem catchNotFound_cons3_take (cid : String) (a b c : Event) (t : List Event)
    (exc : Option Exc) : (catchNotFound cid (a :: b :: c :: t, exc)).1.take 3 = [a, b, c] := by
  unfold catchNotFound
  rcases exc with _ | e
  · simp
  · rcases e with _ | n
    · simp
    · simp

theorem catchNotFound_mem_processCall (cid : String) (r : List Event × Option Exc)
    (c : String) (t : PulpTask) (h : Event.processCall c t ∈ (catchNotFound cid r).1) :
    Event.processCall c t ∈ r.1 := by
  unfold catchNotFound at h
  rcases r with ⟨evs, _ | e⟩
  · exact h
  · rcases e with _ | n
    · simpa using h
    · exact h

theorem catchNotFound_getTask_count (cid : String) (r : List Event × Option Exc) :
    ((catchNotFound cid r).1.countP Event.isGetTask) = r.1.countP Event.isGetTask := by
  unfold catchNotFound
  rcases r with ⟨evs, _ | e⟩
  · rfl
  · rcases e with _ | n
    · simp [Event.isGetTask]
    · rfl

theorem pollTask_shape (cid : String) (task : PulpTask) (env : Env) :
    ∃ rest, (pollTask cid task env).1 = Event.callGetTask task.task_id :: rest := by
  unfold pollTask
  rcases env.getTaskResp task.task_id with e | task2
  · exact ⟨[], rfl⟩
  · by_cases h1 : task2.rejected
    · simp [h1]
    · by_cases h2 : task2.postponed
      · simp [h1, h2]
      · rcases hp : env.processOutcome cid task2 with e | u <;> simp [h1, h2, hp]

theorem pollTask_stopped (cid : String) (task : PulpTask) (env : Env) (task2 : PulpTask)
    (h : env.getTaskResp task.task_id = Except.ok task2)
    (hstop : task2.rejected = true ∨ task2.postponed = true) :
    pollTask cid task env = ([Event.callGetTask task.task_id], none) := by
  unfold pollTask
  rw [h]
  rcases hstop with h1 | h1
  · simp [h1]
  · by_cases h2 : task2.rejected <;> simp [h1, h2]

theorem pollTask_mem_processCall (cid : String) (task : PulpTask) (env : Env)
    (c : String) (t : PulpTask) (h : Event.processCall c t ∈ (pollTask cid task env).1) :
    t.rejected = false ∧ t.postponed = false := by
  unfold pollTask at h
  rcases hg : env.getTaskResp task.task_id with e | task2 <;> simp only [hg] at h
  · simp at h
  · by_cases h1 : task2.rejected
    · simp [h1] at h
    · by_cases h2 : task2.postponed
      · simp [h1, h2] at h
      · rcases hp : env.processOutcome cid task2 with e | u <;>
          simp [h1, h2, hp] at h <;>
          simp [h.2, Bool.eq_false_iff.mpr h1, Bool.eq_false_iff.mpr h2]

theorem pollTask_getTask_count (cid : String) (task : PulpTask) (env : Env) :
    ((pollTask cid task env).1.countP Event.isGetTask) = 1 := by
  unfold pollTask
  rcases env.getTaskResp task.task_id with e | task2
  · simp [Event.isGetTask]
  · by_cases h1 : task2.rejected
    · simp [h1, Event.isGetTask]
    · by_cases h2 : task2.postponed
      · simp [h1, h2, Event.isGetTask]
      · rcases hp : env.processOutcome cid task2 with e | u <;>
          simp [h1, h2, hp, Event.isGetTask]

theorem installTry_error (cid : String) (units : List PkgUnit)
    (options : List (String × Bool)) (env : Env) (e : Exc)
    (h : env.contentResp = Except.error e) :
    Install.installTry cid units options env =
      ([Event.callInstall cid units options], some e) := by
  unfold Install.installTry
  rw [h]

theorem installTry_ok (cid : String) (units : List PkgUnit)
    (options : List (String × Bool)) (env : Env) (task : PulpTask)
    (h : env.contentResp = Except.ok task) :
    Install.installTry cid units options env =
      (Event.callInstall cid units options ::
        Event.renderSuccess ("Install task created with id [" ++ task.task_id ++ "]") ::
        (pollTask cid task env).1,
       (pollTask cid task env).2) := by
  unfold Install.installTry
  rw [h]

theorem uninstallTry_error (cid : String) (units : List PkgUnit)
    (options : List (String × Bool)) (env : Env) (e : Exc)
    (h : env.contentResp = Except.error e) :
    Uninstall.uninstallTry cid units options env =
      ([Event.callUninstall cid units options], some e) := by
  unfold Uninstall.uninstallTry
  rw [h]

theorem uninstallTry_ok (cid : String) (units : List PkgUnit)
    (options : List (String × Bool)) (env : Env) (task : PulpTask)
    (h : env.contentResp = Except.ok task) :
    Uninstall.uninstallTry cid units options env =
      (Event.callUninstall cid units options ::
        Event.renderSuccess ("Uninstall task created with id[" ++ task.task_id ++ "]") ::
        (pollTask cid task env).1,
       (pollTask cid task env).2) := by
  unfold Uninstall.uninstallTry
  rw [h]

theorem install_head (cid : String) (units : List PkgUnit)
    (options : List (String × Bool)) (env : Env) :
    (Install.install cid units options env).1.head? =
      some (Event.callInstall cid units options) := by
  unfold Install.install
  rcases h : env.contentResp with e | task
  · rw [installTry_error cid units options env e h]
    exact catchNotFound_cons_head cid _ _ _
  · rw [installTry_ok cid units options env task h]
    exact catchNotFound_cons_head cid _ _ _

theorem uninstall_head (cid : String) (units : List PkgUnit)
    (options : List (String × Bool)) (env : Env) :
    (Uninstall.uninstall cid units options env).1.head? =
      some (Event.callUninstall cid units options) := by
  unfold Uninstall.uninstall
  rcases h : env.contentResp with e | task
  · rw [uninstallTry_error cid units options env e h]
    exact catchNotFound_cons_head cid _ _ _
  · rw [uninstallTry_ok cid units options env task h]
    exact catchNotFound_cons_head cid _ _ _

/-! ## Sample inputs used by witnesses and counterexamples -/

/-- Sample group details with one resolved package and one dependency. -/
def sampleDetails : GroupDetails :=
  { message := "err",
    resolved := [[("name", "p1"), ("version", "1"), ("arch", "noarch"), ("repoid", "r1")]],
    deps := [[("name", "d1"), ("version", "2"), ("arch", "noarch"), ("repoid", "r1")]] }

/-- Sample task as returned by the content call. -/
def sampleTask : PulpTask :=
  { task_id := "t1", rejected := false, postponed := false,
    result := { status := true, details := sampleDetails } }

/-- Sample rejected task as returned by the status fetch. -/
def sampleRejected : PulpTask :=
  { task_id := "t1", rejected := true, postponed := false,
    result := { status := true, details := sampleDetails } }

/-- Sample task whose result reports failure. -/
def taskFailed : PulpTask :=
  { task_id := "t9", rejected := false, postponed := false,
    result := { status := false, details := sampleDetails } }

/-- Sample task whose result succeeded with nothing resolved and no deps. -/
def taskEmptyResolved : PulpTask :=
  { task_id := "t2", rejected := false, postponed := false,
    result := { status := true,
                details := { message := "", resolved := [], deps := [] } } }

/-- Environment whose content call raises `NotFoundException`. -/
def envNotFound : Env :=
  { contentResp := Except.error Exc.notFound,
    getTaskResp := fun _ => Except.error (Exc.other "E"),
    processOutcome := fun _ _ => Except.ok () }

/-- Environment that creates `sampleTask` and reports it rejected on fetch. -/
def envRejected : Env :=
  { contentResp := Except.ok sampleTask,
    getTaskResp := fun _ => Except.ok sampleRejected,
    processOutcome := fun _ _ => Except.ok () }

/-- Sample keyword arguments for `Install.run`. -/
def kwInstallEx : InstallKwargs :=
  { consumer_id := "c1", no_commit := false, reboot := true, name := ["grpA", "grpB"],
    import_keys := true }

/-- Sample keyword arguments for `Uninstall.run`. -/
def kwUninstallEx : UninstallKwargs :=
  { consumer_id := "c1", no_commit := false, reboot := false, name := ["grpA"] }

/-! ## Claim theorems -/

/-- C1: in every invocation of `Install.install` or `Uninstall.uninstall`, a
`NotFoundException` raised by the server calls of the try body is caught and
the command writes `Consumer [<consumer_id>] not found` with tag `not-found`
after the events already emitted, propagating nothing; and this is the only
exception type caught: any other exception leaves the invocation unchanged and
propagates out uncaught. -/
theorem notFound_only_exception_caught (cid : String) (units : List PkgUnit)
    (options : List (String × Bool)) (env : Env) :
    ((Install.installTry cid units options env).2 = some Exc.notFound →
        Install.install cid units options env =
          ((Install.installTry cid units options env).1 ++
            [Event.write ("Consumer [" ++ cid ++ "] not found") "not-found"], none)) ∧
    (∀ n, (Install.installTry cid units options env).2 = some (Exc.other n) →
        Install.install cid units options env =
          Install.installTry cid units options env) ∧
    ((Uninstall.uninstallTry cid units options env).2 = some Exc.notFound →
        Uninstall.uninstall cid units options env =
          ((Uninstall.uninstallTry cid units options env).1 ++
            [Event.write ("Consumer [" ++ cid ++ "] not found") "not-found"], none)) ∧
    (∀ n, (Uninstall.uninstallTry cid units options env).2 = some (Exc.other n) →
        Uninstall.uninstall cid units options env =
          Uninstall.uninstallTry cid units options env) := by
  refine ⟨fun h => ?_, fun n h => ?_, fun h => ?_, fun n h => ?_⟩
  · exact catchNotFound_of_notFound cid _ h
  · exact catchNotFound_of_other cid _ n h
  · exact catchNotFound_of_notFound cid _ h
  · exact catchNotFound_of_other cid _ n h

/-- Witness for C1 at a concrete invocation whose content call raises
`NotFoundException`. -/
theorem notFound_only_exception_caught_witness :
    Install.install "c0" [] [] envNotFound =
      ((Install.installTry "c0" [] [] envNotFound).1 ++
        [Event.write ("Consumer [" ++ "c0" ++ "] not found") "not-found"], none) :=
  (notFound_only_exception_caught "c0" [] [] envNotFound).1 rfl

/-- C2 counterexample: at a concrete `Uninstall.run` invocation the options bag
passed to the server is `[(apply, true), (reboot, false)]` and contains no
`importkeys` entry, refuting the claim that both commands send all three
booleans. -/
theorem uninstall_options_lack_importkeys :
    (Uninstall.run kwUninstallEx envNotFound).1.head? =
      some (Event.callUninstall "c1" (Uninstall.runUnits ["grpA"])
        [("apply", true), ("reboot", false)]) ∧
    ([("apply", true), ("reboot", false)] : List (String × Bool)).lookup "importkeys" =
      none := by
  constructor
  · rfl
  · rfl

/-- C2 amended: `Install.run` passes the server an options bag whose `apply`
entry is the negation of `--no-commit`, whose `importkeys` entry is the
`--import-keys` flag and whose `reboot` entry is the `--reboot` flag, while
`Uninstall.run` passes only `apply` and `reboot` (with the same values) and no
`importkeys` entry at all. -/
theorem run_options_sent (kwI : InstallKwargs) (kwU : UninstallKwargs) (env : Env) :
    ((Install.run kwI env).1.head? =
        some (Event.callInstall kwI.consumer_id (Install.runUnits kwI.name)
          (Install.runOptions kwI))) ∧
    (Install.runOptions kwI).lookup "apply" = some (!kwI.no_commit) ∧
    (Install.runOptions kwI).lookup "importkeys" = some kwI.import_keys ∧
    (Install.runOptions kwI).lookup "reboot" = some kwI.reboot ∧
    ((Uninstall.run kwU env).1.head? =
        some (Event.callUninstall kwU.consumer_id (Uninstall.runUnits kwU.name)
          (Uninstall.runOptions kwU))) ∧
    (Uninstall.runOptions kwU).lookup "apply" = some (!kwU.no_commit) ∧
    (Uninstall.runOptions kwU).lookup "reboot" = some kwU.reboot ∧
    (Uninstall.runOptions kwU).lookup "importkeys" = none := by
  refine ⟨?_, rfl, rfl, rfl, ?_, rfl, rfl, rfl⟩
  · exact install_head kwI.consumer_id (Install.runUnits kwI.name) (Install.runOptions kwI) env
  · exact uninstall_head kwU.consumer_id (Uninstall.runUnits kwU.name) (Uninstall.runOptions kwU) env

/-- C3 counterexample: `--import-keys` is declared by `Install.__init__` but
not by `Uninstall.__init__`, so the two commands do not expose the same option
surface. -/
theorem uninstall_lacks_import_keys_flag :
    CliOpt.flag "--import-keys" ∈ Install.cliOptions ∧
    CliOpt.flag "--import-keys" ∉ Uninstall.cliOptions := by
  decide

/-- C3 amended: the install command exposes exactly `--consumer-id` (required),
`--no-commit`, `--reboot`, `--name` (required, repeatable, alias `-n`) and
`--import-keys`, while the uninstall command exposes exactly the same surface
minus `--import-keys`. -/
theorem cli_option_surface :
    Install.cliOptions =
      [CliOpt.opt "--consumer-id" true false [],
       CliOpt.flag "--no-commit",
       CliOpt.flag "--reboot",
       CliOpt.opt "--name" true true ["-n"],
       CliOpt.flag "--import-keys"] ∧
    Uninstall.cliOptions =
      Install.cliOptions.filter (fun o => o != CliOpt.flag "--import-keys") := by
  constructor
  · rfl
  · decide

/-- C4: for every non-empty list of `--name` values, both commands send the
server one unit descriptor per name, in the order of the names, each of the
form `type_id = TYPE_ID_PKG_GROUP`, `unit_key.name = <name>`. -/
theorem units_one_per_name (kwI : InstallKwargs) (kwU : UninstallKwargs) (env : Env)
    (hI : kwI.name ≠ []) (hU : kwU.name ≠ []) :
    ((Install.run kwI env).1.head? =
        some (Event.callInstall kwI.consumer_id (Install.runUnits kwI.name)
          (Install.runOptions kwI))) ∧
    (Install.runUnits kwI.name).length = kwI.name.length ∧
    (∀ (i : Nat) (n : String), kwI.name[i]? = some n →
        (Install.runUnits kwI.name)[i]? =
          some { type_id := TYPE_ID_PKG_GROUP, unit_key := { name := n } }) ∧
    ((Uninstall.run kwU env).1.head? =
        some (Event.callUninstall kwU.consumer_id (Uninstall.runUnits kwU.name)
          (Uninstall.runOptions kwU))) ∧
    (Uninstall.runUnits kwU.name).length = kwU.name.length ∧
    (∀ (i : Nat) (n : String), kwU.name[i]? = some n →
        (Uninstall.runUnits kwU.name)[i]? =
          some { type_id := TYPE_ID_PKG_GROUP, unit_key := { name := n } }) := by
  refine ⟨install_head _ _ _ _, ?_, fun i n h => ?_,
          uninstall_head _ _ _ _, ?_, fun i n h => ?_⟩
  · simp [Install.runUnits]
  · simp [Install.runUnits, h]
  · simp [Uninstall.runUnits]
  · simp [Uninstall.runUnits, h]

/-- Witness for C4 at concrete two-name and one-name invocations. -/
theorem units_one_per_name_witness :
    (Install.runUnits kwInstallEx.name).length = kwInstallEx.name.length ∧
    (Install.runUnits kwInstallEx.name)[1]? =
      some { type_id := TYPE_ID_PKG_GROUP, unit_key := { name := "grpB" } } ∧
    (Uninstall.runUnits kwUninstallEx.name)[0]? =
      some { type_id := TYPE_ID_PKG_GROUP, unit_key := { name := "grpA" } } := by
  obtain ⟨-, h1, h2, -, -, h3⟩ :=
    units_one_per_name kwInstallEx kwUninstallEx envNotFound
      (by decide) (by decide)
  exact ⟨h1, h2 1 "grpB" rfl, h3 0 "grpA" rfl⟩

/-- C5: when the task result status is falsy, `Install.succeeded` renders
exactly the failure message `Install failed` followed by the server-provided
detail message as a second failure message and nothing else (no title, table
or success message), and `Uninstall.succeeded` does the same with
`Uninstall Failed`. -/
theorem failed_status_rendering (id : String) (task : PulpTask)
    (h : task.result.status = false) :
    Install.succeeded id task =
      [Event.renderFailure "Install failed",
       Event.renderFailure task.result.details.message] ∧
    Uninstall.succeeded id task =
      [Event.renderFailure "Uninstall Failed",
       Event.renderFailure task.result.details.message] := by
  constructor <;> simp [Install.succeeded, Uninstall.succeeded, h]

/-- Witness for C5 at a concrete failed task result. -/
theorem failed_status_rendering_witness :
    Install.succeeded "c0" taskFailed =
      [Event.renderFailure "Install failed",
       Event.renderFailure taskFailed.result.details.message] ∧
    Uninstall.succeeded "c0" taskFailed =
      [Event.renderFailure "Uninstall Failed",
       Event.renderFailure taskFailed.result.details.message] :=
  failed_status_rendering "c0" taskFailed rfl

/-- C6: when the task result status is truthy and the resolved list is
non-empty, `Install.succeeded` renders the success message `Install Succeeded`,
then the title `Installed`, then the document list of the resolved entries
ordered and filtered by the columns name, version, arch, repoid;
`Uninstall.succeeded` behaves the same with `Uninstall Succeeded` and
`Uninstalled`. -/
theorem success_resolved_rendering (id : String) (task : PulpTask)
    (h : task.result.status = true) (hr : task.result.details.resolved ≠ []) :
    (Install.succeeded id task).take 3 =
      [Event.renderSuccess "Install Succeeded",
       Event.renderTitle "Installed",
       Event.renderDocList task.result.details.resolved
         ["name", "version", "arch", "repoid"] ["name", "version", "arch", "repoid"]] ∧
    (Uninstall.succeeded id task).take 3 =
      [Event.renderSuccess "Uninstall Succeeded",
       Event.renderTitle "Uninstalled",
       Event.renderDocList task.result.details.resolved
         ["name", "version", "arch", "repoid"] ["name", "version", "arch", "repoid"]] := by
  constructor <;>
    simp [Install.succeeded, Uninstall.succeeded, Install.filter, Uninstall.filter, h, hr]

/-- Witness for C6 at a concrete successful task result with one resolved
entry. -/
theorem success_resolved_rendering_witness :
    (Install.succeeded "c0" sampleTask).take 3 =
      [Event.renderSuccess "Install Succeeded",
       Event.renderTitle "Installed",
       Event.renderDocList sampleTask.result.details.resolved
         ["name", "version", "arch", "repoid"] ["name", "version", "arch", "repoid"]] ∧
    (Uninstall.succeeded "c0" sampleTask).take 3 =
      [Event.renderSuccess "Uninstall Succeeded",
       Event.renderTitle "Uninstalled",
       Event.renderDocList sampleTask.result.details.resolved
         ["name", "version", "arch", "repoid"] ["name", "version", "arch", "repoid"]] :=
  success_resolved_rendering "c0" sampleTask rfl (by decide)

/-- C8: when the task result status is truthy and the resolved list is empty,
no `Installed` (resp. `Uninstalled`) title and no document list for the
resolved entries is rendered; instead `Install.succeeded` renders the success
message `Packages for groups already installed` and `Uninstall.succeeded`
renders `No matching packages found to uninstall`, each right after the
success banner. -/
theorem success_empty_resolved (id : String) (task : PulpTask)
    (h : task.result.status = true) (hr : task.result.details.resolved = []) :
    ((Install.succeeded id task).take 2 =
       [Event.renderSuccess "Install Succeeded",
        Event.renderSuccess "Packages for groups already installed"]) ∧
    Event.renderTitle "Installed" ∉ Install.succeeded id task ∧
    (∀ o f, Event.renderDocList task.result.details.resolved o f ∉
        Install.succeeded id task) ∧
    ((Uninstall.succeeded id task).take 2 =
       [Event.renderSuccess "Uninstall Succeeded",
        Event.renderSuccess "No matching packages found to uninstall"]) ∧
    Event.renderTitle "Uninstalled" ∉ Uninstall.succeeded id task ∧
    (∀ o f, Event.renderDocList task.result.details.resolved o f ∉
        Uninstall.succeeded id task) := by
  refine ⟨?_, ?_, fun o f => ?_, ?_, ?_, fun o f => ?_⟩ <;>
    by_cases hd : task.result.details.deps = [] <;>
    simp [Install.succeeded, Uninstall.succeeded, Install.filter, Uninstall.filter,
      h, hr, hd]

/-- Witness for C8 at a concrete successful task result with nothing
resolved. -/
theorem success_empty_resolved_witness :
    ((Install.succeeded "c0" taskEmptyResolved).take 2 =
       [Event.renderSuccess "Install Succeeded",
        Event.renderSuccess "Packages for groups already installed"]) ∧
    Event.renderTitle "Installed" ∉ Install.succeeded "c0" taskEmptyResolved ∧
    ((Uninstall.succeeded "c0" taskEmptyResolved).take 2 =
       [Event.renderSuccess "Uninstall Succeeded",
        Event.renderSuccess "No matching packages found to uninstall"]) := by
  obtain ⟨h1, h2, -, h3, -, -⟩ :=
    success_empty_resolved "c0" taskEmptyResolved rfl rfl
  exact ⟨h1, h2, h3⟩

/-- C9: when the task result status is truthy, the dependency section (title
`Installed for dependency` resp. `Uninstalled for dependency` plus the
document list of the deps entries) is rendered exactly when the deps list is
non-empty; the statement holds for every task, hence independently of whether
the resolved list was empty. -/
theorem deps_section_iff (id : String) (task : PulpTask)
    (h : task.result.status = true) :
    ((Event.renderTitle "Installed for dependency" ∈ Install.succeeded id task ↔
        task.result.details.deps ≠ []) ∧
     (Event.renderDocList task.result.details.deps Install.filter Install.filter ∈
        Install.succeeded id task ↔ task.result.details.deps ≠ [])) ∧
    ((Event.renderTitle "Uninstalled for dependency" ∈ Uninstall.succeeded id task ↔
        task.result.details.deps ≠ []) ∧
     (Event.renderDocList task.result.details.deps Uninstall.filter Uninstall.filter ∈
        Uninstall.succeeded id task ↔ task.result.details.deps ≠ [])) := by
  refine ⟨⟨?_, ?_⟩, ⟨?_, ?_⟩⟩ <;>
    by_cases hr : task.result.details.resolved = [] <;>
    by_cases hd : task.result.details.deps = [] <;>
    simp [Install.succeeded, Uninstall.succeeded, Install.filter, Uninstall.filter,
      h, hr, hd]

/-- Witness for C9 at a concrete task with a non-empty deps list. -/
theorem deps_section_iff_witness :
    Event.renderTitle "Installed for dependency" ∈ Install.succeeded "c0" sampleTask ∧
    Event.renderTitle "Uninstalled for dependency" ∈ Uninstall.succeeded "c0" sampleTask := by
  obtain ⟨⟨h1, -⟩, ⟨h2, -⟩⟩ := deps_section_iff "c0" sampleTask rfl
  exact ⟨h1.mpr (by decide), h2.mpr (by decide)⟩

/-- C7: in every invocation whose server calls do not raise, the command first
issues the content REST call, then fetches the task status exactly once via
`tasks.get_task`; `process` is never invoked on a task that is rejected or
postponed, and in those two cases the invocation returns immediately after the
status fetch, its trace ending with the `get_task` call. -/
theorem poll_once_no_process_on_stopped (cid : String) (units : List PkgUnit)
    (options : List (String × Bool)) (env : Env) (t1 t2 : PulpTask)
    (h1 : env.contentResp = Except.ok t1)
    (h2 : env.getTaskResp t1.task_id = Except.ok t2) :
    ((Install.install cid units options env).1.take 3 =
       [Event.callInstall cid units options,
        Event.renderSuccess ("Install task created with id [" ++ t1.task_id ++ "]"),
        Event.callGetTask t1.task_id]) ∧
    ((Install.install cid units options env).1.countP Event.isGetTask = 1) ∧
    (t2.rejected = true ∨ t2.postponed = true →
       Install.install cid units options env =
         ([Event.callInstall cid units options,
           Event.renderSuccess ("Install task created with id [" ++ t1.task_id ++ "]"),
           Event.callGetTask t1.task_id], none)) ∧
    (∀ c t, Event.processCall c t ∈ (Install.install cid units options env).1 →
       t.rejected = false ∧ t.postponed = false) ∧
    ((Uninstall.uninstall cid units options env).1.take 3 =
       [Event.callUninstall cid units options,
        Event.renderSuccess ("Uninstall task created with id[" ++ t1.task_id ++ "]"),
        Event.callGetTask t1.task_id]) ∧
    ((Uninstall.uninstall cid units options env).1.countP Event.isGetTask = 1) ∧
    (t2.rejected = true ∨ t2.postponed = true →
       Uninstall.uninstall cid units options env =
         ([Event.callUninstall cid units options,
           Event.renderSuccess ("Uninstall task created with id[" ++ t1.task_id ++ "]"),
           Event.callGetTask t1.task_id], none)) ∧
    (∀ c t, Event.processCall c t ∈ (Uninstall.uninstall cid units options env).1 →
       t.rejected = false ∧ t.postponed = false) := by
  obtain ⟨rest, hrest⟩ := pollTask_shape cid t1 env
  refine ⟨?_, ?_, fun hstop => ?_, fun c t hmem => ?_, ?_, ?_, fun hstop => ?_,
    fun c t hmem => ?_⟩
  · rw [Install.install, installTry_ok cid units options env t1 h1, hrest]
    exact catchNotFound_cons3_take cid _ _ _ _ _
  · rw [Install.install, installTry_ok cid units options env t1 h1,
      catchNotFound_getTask_count]
    simp [Event.isGetTask, pollTask_getTask_count]
  · rw [Install.install, installTry_ok cid units options env t1 h1,
      pollTask_stopped cid t1 env t2 h2 hstop]
    exact catchNotFound_of_none cid _ rfl
  · rw [Install.install] at hmem
    have hmem2 := catchNotFound_mem_processCall cid _ c t hmem
    rw [installTry_ok cid units options env t1 h1] at hmem2
    simp at hmem2
    exact pollTask_mem_processCall cid t1 env c t hmem2
  · rw [Uninstall.uninstall, uninstallTry_ok cid units options env t1 h1, hrest]
    exact catchNotFound_cons3_take cid _ _ _ _ _
  · rw [Uninstall.uninstall, uninstallTry_ok cid units options env t1 h1,
      catchNotFound_getTask_count]
    simp [Event.isGetTask, pollTask_getTask_count]
  · rw [Uninstall.uninstall, uninstallTry_ok cid units options env t1 h1,
      pollTask_stopped cid t1 env t2 h2 hstop]
    exact catchNotFound_of_none cid _ rfl
  · rw [Uninstall.uninstall] at hmem
    have hmem2 := catchNotFound_mem_processCall cid _ c t hmem
    rw [uninstallTry_ok cid units options env t1 h1] at hmem2
    simp at hmem2
    exact pollTask_mem_processCall cid t1 env c t hmem2

/-- Witness for C7 at a concrete invocation whose fetched task is rejected. -/
theorem poll_once_no_process_on_stopped_witness :
    Install.install "c0" [] [] envRejected =
      ([Event.callInstall "c0" [] [],
        Event.renderSuccess ("Install task created with id [" ++ sampleTask.task_id ++ "]"),
        Event.callGetTask sampleTask.task_id], none) := by
  obtain ⟨-, -, h3, -, -, -, -, -⟩ :=
    poll_once_no_process_on_stopped "c0" [] [] envRejected sampleTask sampleRejected
      rfl rfl
  exact h3 (Or.inl rfl)

/-- C10: in every invocation whose content call returns a task, the success
message `Install task created with id [<id>]` (resp.
`Uninstall task created with id[<id>]`) is the second trace event, directly
after the content call and before any `get_task` fetch; since only the content
response is assumed, the message is emitted no matter what the status fetch
later reports (rejected, postponed or anything else). -/
theorem task_created_message_before_fetch (cid : String) (units : List PkgUnit)
    (options : List (String × Bool)) (env : Env) (t1 : PulpTask)
    (h1 : env.contentResp = Except.ok t1) :
    ((Install.install cid units options env).1.take 2 =
       [Event.callInstall cid units options,
        Event.renderSuccess ("Install task created with id [" ++ t1.task_id ++ "]")]) ∧
    (∀ tid, Event.callGetTask tid ∉ (Install.install cid units options env).1.take 2) ∧
    ((Uninstall.uninstall cid units options env).1.take 2 =
       [Event.callUninstall cid units options,
        Event.renderSuccess ("Uninstall task created with id[" ++ t1.task_id ++ "]")]) ∧
    (∀ tid, Event.callGetTask tid ∉ (Uninstall.uninstall cid units options env).1.take 2) := by
  have hi : (Install.install cid units options env).1.take 2 =
      [Event.callInstall cid units options,
       Event.renderSuccess ("Install task created with id [" ++ t1.task_id ++ "]")] := by
    rw [Install.install, installTry_ok cid units options env t1 h1]
    exact catchNotFound_cons2_take cid _ _ _ _
  have hu : (Uninstall.uninstall cid units options env).1.take 2 =
      [Event.callUninstall cid units options,
       Event.renderSuccess ("Uninstall task created with id[" ++ t1.task_id ++ "]")] := by
    rw [Uninstall.uninstall, uninstallTry_ok cid units options env t1 h1]
    exact catchNotFound_cons2_take cid _ _ _ _
  refine ⟨hi, fun tid => ?_, hu, fun tid => ?_⟩
  · rw [hi]
    simp
  · rw [hu]
    simp

/-- Witness for C10 at a concrete invocation whose fetched task is rejected:
the creation message is still emitted. -/
theorem task_created_message_before_fetch_witness :
    ((Install.install "c0" [] [] envRejected).1.take 2 =
       [Event.callInstall "c0" [] [],
        Event.renderSuccess ("Install task created with id [" ++ sampleTask.task_id ++ "]")]) ∧
    ((Uninstall.uninstall "c0" [] [] envRejected).1.take 2 =
       [Event.callUninstall "c0" [] [],
        Event.renderSuccess ("Uninstall task created with id[" ++ sampleTask.task_id ++ "]")]) := by
  obtain ⟨h1, -, h2, -⟩ :=
    task_created_message_before_fetch "c0" [] [] envRejected sampleTask rfl
  exact ⟨h1, h2⟩
